import Mathlib

/-
  Verification of `ray-scripts/train_cpu.py` (fraud-detection distributed
  training script).  The script is a linear pipeline: resolve configuration
  from environment variables, read a CSV dataset from object storage,
  standard-scale the five feature columns, concatenate them into a single
  "features" vector column, hand the dataset to a distributed trainer whose
  per-worker function builds and fits a small Keras network, and finally
  upload the pickled scaler and the ONNX-converted model back to the bucket.

  The shallow embedding below models:
  * Python primitives actually used (os.environ.get, int(), str.lower(),
    str.removeprefix, dict.get, range, f-strings over Optional values);
  * the module-level constants and environment resolution (lines 23-53);
  * datasets as lists of association-list rows of rational/vector cells,
    with the Ray `StandardScaler` / `Concatenator` preprocessors modelled
    from their documented semantics (mean/std stats with the std = 0 -> 1
    guard; concatenation of the included columns into one vector column).
    Square roots do not exist in ℚ, so the fitting function is
    parametrised by a function `sqrtQ : ℚ → ℚ` standing for the numeric
    square root used when turning the variance into a standard deviation;
  * `train_func`, `build_model`, `save_scalar`, `save_onnx_model` and the
    module tail (lines 78-186) as trace-producing functions, with the
    framework-owned parts (worker launch, checkpoint writing) abstracted:
    the checkpoint path produced by `trainer.fit()` is a parameter and the
    checkpoint metadata returned by the framework is the metadata the
    script passed in (the framework's documented contract).
-/

namespace FraudTrain

/-! ### Python primitives -/

/-- Lower-case one ASCII character (environment values here are ASCII). -/
def chLower (c : Char) : Char :=
  if 65 ≤ c.toNat ∧ c.toNat ≤ 90 then Char.ofNat (c.toNat + 32) else c

/-- Python `str.lower()` on ASCII strings. -/
def pyLower (s : String) : String := String.mk (s.data.map chLower)

/-- The value of a decimal digit character. -/
def chDigit (c : Char) : Option Nat :=
  if 48 ≤ c.toNat ∧ c.toNat ≤ 57 then some (c.toNat - 48) else none

/-- Accumulate the value of a run of decimal digits. -/
def digitsValAux (acc : Nat) : List Char → Option Nat
  | [] => some acc
  | c :: t =>
      match chDigit c with
      | some d => digitsValAux (acc * 10 + d) t
      | none => none

/-- Value of a nonempty all-digit character list. -/
def digitsVal (l : List Char) : Option Nat :=
  match l with
  | [] => none
  | _ => digitsValAux 0 l

/-- Python `int(s)` on optionally minus-prefixed decimal numerals, raising
(here: `none`) on anything else; the further syntax `int()` accepts
(whitespace, `+`, underscores) is unused by the script's inputs. -/
def pyInt (s : String) : Option Int :=
  match s.data with
  | '-' :: t => (digitsVal t).map (fun n => -(n : Int))
  | l => (digitsVal l).map (fun n => (n : Int))

/-- Python f-string interpolation of a possibly-`None` value:
`None` prints as the string `"None"`. -/
def pyStrOpt (o : Option String) : String := o.getD "None"

/-- Python `s.removeprefix(p)`: drop `p` from the front of `s` when it is
there, otherwise return `s` unchanged. -/
def strDropPre (s p : String) : String :=
  if p.data.isPrefixOf s.data then String.mk (s.data.drop p.data.length) else s

/-- A process environment: a partial map from variable names to values. -/
abbrev Env : Type := String → Option String

/-- Python `os.environ.get(k, d)`. -/
def envGetD (env : Env) (k d : String) : String := (env k).getD d

/-- Python values stored in the train-loop configuration dictionary. -/
inductive PyVal : Type
  | int (i : Int)
  | float (q : ℚ)
  | str (s : String)
deriving DecidableEq

/-- Extract an `Int` from a `PyVal` (a Python context requiring an int). -/
def PyVal.asInt : PyVal → Option Int
  | PyVal.int i => some i
  | _ => none

/-- First-match lookup in an association list, mirroring a Python dict
built from distinct literal keys. -/
def assocFind {α : Type} (l : List (String × α)) (k : String) : Option α :=
  match l with
  | [] => none
  | (k', v) :: t => if k = k' then some v else assocFind t k

/-- Python `d.get(k, default)`. -/
def dictGetD {α : Type} (l : List (String × α)) (k : String) (d : α) : α :=
  (assocFind l k).getD d

/-- Python `range(n)` for a (possibly negative) integer bound. -/
def pyRange (n : Int) : List Int :=
  if n ≤ 0 then [] else (List.range n.toNat).map Int.ofNat

/-! ### Module-level constants (train_cpu.py lines 27-53) -/

/-- Line 27: `learning_rate = 1e-3` — a hard-coded constant, not read from
any environment variable. -/
def learning_rate : ℚ := 1 / 1000

/-- Line 28: `output_column_name = "features"`. -/
def output_column_name : String := "features"

/-- Lines 30-36: the five transaction feature columns. -/
def feature_columns : List String :=
  ["distance_from_last_transaction",
   "ratio_to_median_purchase_price",
   "used_chip",
   "used_pin_number",
   "online_order"]

/-- Lines 38-40: the single label column. -/
def label_columns : List String := ["fraud"]

/-- Line 49: `keras_model_filename = "model.keras"`. -/
def keras_model_filename : String := "model.keras"

/-- The configuration the script resolves at import time (lines 23-53).
`model_output_dir` is the Python variable `model_output_prefix`
(renamed here for Lean lexical reasons). -/
structure ResolvedEnv : Type where
  use_gpu : Bool
  num_workers : Int
  num_epochs : Int
  batch_size : Int
  aws_access_key_id : Option String
  aws_secret_access_key : Option String
  endpoint_url : Option String
  region_name : Option String
  bucket_name : Option String
  train_data : String
  model_output_dir : String
  model_output_filename : String
deriving DecidableEq

/-- Lines 23-53: resolve every configuration value from the environment.
`none` models the script raising on an unparseable integer variable. -/
def resolveEnv (env : Env) : Option ResolvedEnv := do
  let nw ← pyInt (envGetD env "NUM_WORKERS" "1")
  let ne ← pyInt (envGetD env "NUM_EPOCHS" "2")
  let nb ← pyInt (envGetD env "BATCH_SIZE" "64")
  some
    { use_gpu := pyLower (envGetD env "USE_GPU" "False") == "true"
      num_workers := nw
      num_epochs := ne
      batch_size := nb
      aws_access_key_id := env "AWS_ACCESS_KEY_ID"
      aws_secret_access_key := env "AWS_SECRET_ACCESS_KEY"
      endpoint_url := env "AWS_S3_ENDPOINT"
      region_name := env "AWS_DEFAULT_REGION"
      bucket_name := env "AWS_S3_BUCKET"
      train_data := envGetD env "TRAIN_DATA" "data/train.csv"
      model_output_dir := envGetD env "MODEL_OUTPUT" "models/fraud/1/"
      model_output_filename := envGetD env "MODEL_OUTPUT_FILENAME" "model.onnx" }

/-- Line 52: `scaler_output = model_output_prefix + "scaler.pkl"` —
plain string concatenation, no separator inserted. -/
def scaler_output (c : ResolvedEnv) : String :=
  c.model_output_dir ++ "scaler.pkl"

/-- Line 53: `model_output = model_output_prefix + model_output_filename`. -/
def model_output (c : ResolvedEnv) : String :=
  c.model_output_dir ++ c.model_output_filename

/-- Line 160: the object-storage URL `f"s3://{bucket_name}/{train_data}"`
the raw CSV is read from. -/
def trainDataPath (c : ResolvedEnv) : String :=
  "s3://" ++ pyStrOpt c.bucket_name ++ "/" ++ c.train_data

/-! ### Datasets and the Ray preprocessors -/

/-- A cell of a dataset column: a numeric value or a concatenated vector. -/
inductive Cell : Type
  | num (q : ℚ)
  | vec (v : List ℚ)
deriving DecidableEq

/-- Numeric projection of a cell. -/
def Cell.asNum : Cell → Option ℚ
  | Cell.num q => some q
  | _ => none

/-- A row of the dataset: column name / cell pairs in column order. -/
abbrev Row : Type := List (String × Cell)

/-- A (materialised) dataset: a list of rows. -/
abbrev Dataset : Type := List Row

/-- Look a column up in a row. -/
def rowGet (r : Row) (k : String) : Option Cell :=
  assocFind r k

/-- The numeric values a column takes over a dataset (the values the Ray
aggregators see). -/
def colValues (ds : Dataset) (c : String) : List ℚ :=
  ds.filterMap (fun r => (rowGet r c).bind Cell.asNum)

/-- Mean of a column (0 on an empty column, as ℚ division by zero is 0). -/
def meanOf (ds : Dataset) (c : String) : ℚ :=
  (colValues ds c).sum / (colValues ds c).length

/-- Population variance (`ddof=0`) of a column. -/
def varOf (ds : Dataset) (c : String) : ℚ :=
  ((colValues ds c).map (fun x => (x - meanOf ds c) ^ 2)).sum /
    (colValues ds c).length

/-- The Ray `StandardScaler` preprocessor: the columns it scales and, once
fitted, the per-column `(mean, std)` statistics. -/
structure StandardScaler : Type where
  columns : List String
  stats : List (String × (ℚ × ℚ))
deriving DecidableEq

/-- Fitting the scaler computes each column's mean and standard deviation
(`sqrtQ` of the population variance) over the dataset. -/
def StandardScaler.fit (sqrtQ : ℚ → ℚ) (s : StandardScaler) (ds : Dataset) :
    StandardScaler :=
  { columns := s.columns
    stats := s.columns.map (fun c => (c, (meanOf ds c, sqrtQ (varOf ds c)))) }

/-- Scale one numeric value of column `c`: `(x - mean) / std`, where a zero
(or missing) std is replaced by 1 and a missing mean by 0 — the scaler's
documented degenerate-column guard. -/
def scaleVal (stats : List (String × (ℚ × ℚ))) (c : String) (q : ℚ) : ℚ :=
  let m : ℚ := ((assocFind stats c).map Prod.fst).getD 0
  let s0 : ℚ := ((assocFind stats c).map Prod.snd).getD 1
  let s : ℚ := if s0 = 0 then 1 else s0
  (q - m) / s

/-- Apply the fitted scaler to one cell of column `k`. -/
def scaleCell (s : StandardScaler) (k : String) (v : Cell) : Cell :=
  if k ∈ s.columns then
    match v with
    | Cell.num q => Cell.num (scaleVal s.stats k q)
    | Cell.vec w => Cell.vec w
  else v

/-- Apply the fitted scaler to a whole row (non-scaled columns untouched). -/
def scaleRow (s : StandardScaler) (r : Row) : Row :=
  r.map (fun kv => (kv.1, scaleCell s kv.1 kv.2))

/-- Apply the fitted scaler to a dataset, producing a new dataset. -/
def StandardScaler.transformDS (s : StandardScaler) (ds : Dataset) : Dataset :=
  ds.map (scaleRow s)

/-- The Ray `Concatenator` preprocessor: collapse the included columns of
each row into a single vector column named `out`, dropping the originals
and keeping every other column. -/
structure Concatenator : Type where
  cols : List String
  out : String
deriving DecidableEq

/-- Concatenate one row. -/
def concatRow (cc : Concatenator) (r : Row) : Row :=
  (r.filter (fun kv => decide (kv.1 ∉ cc.cols))) ++
    [(cc.out, Cell.vec (cc.cols.filterMap (fun c => (rowGet r c).bind Cell.asNum)))]

/-- Concatenate a dataset. -/
def Concatenator.transformDS (cc : Concatenator) (ds : Dataset) : Dataset :=
  ds.map (concatRow cc)

/-! ### The Keras model and the per-worker training function -/

/-- A Keras layer as added by `build_model` (lines 78-91). -/
inductive Layer : Type
  | dense (units : Nat) (activation : Option String) (inputDim : Option Nat)
  | dropout (rate : ℚ)
  | batchNorm
  | activation (name : String)
deriving DecidableEq

/-- Lines 78-91: `build_model()` — the feed-forward architecture, layer by
layer. -/
def build_model : List Layer :=
  [Layer.dense 32 (some "relu") (some feature_columns.length),
   Layer.dropout (2 / 10),
   Layer.dense 32 none none,
   Layer.batchNorm,
   Layer.activation "relu",
   Layer.dropout (2 / 10),
   Layer.dense 32 none none,
   Layer.batchNorm,
   Layer.activation "relu",
   Layer.dropout (2 / 10),
   Layer.dense 1 (some "sigmoid") none]

/-- Observable steps taken by `train_func` inside one worker. -/
inductive WEvent : Type
  | buildModel (layers : List Layer)
  | compileModel (optimizer loss : String) (metrics : List String)
  | shardToTf (featureCol labelCol : String) (batchSize : Int)
  | fitEpoch (callbacks : List String)
deriving DecidableEq

/-- Is this worker event the model construction? -/
def WEvent.isBuild : WEvent → Bool
  | WEvent.buildModel _ => true
  | _ => false

/-- Is this worker event a per-epoch `model.fit` call? -/
def WEvent.isFit : WEvent → Bool
  | WEvent.fitEpoch _ => true
  | _ => false

/-- Is this worker event the shard's `to_tf` batching call? -/
def WEvent.isToTf : WEvent → Bool
  | WEvent.shardToTf _ _ _ => true
  | _ => false

/-- Lines 94-122: `train_func(config)`, run once in each worker on its data
shard.  `H` is the type of one epoch's Keras history record and
`runFit i` the history the framework-driven fit produces at epoch `i`
(training numerics are the libraries' business, so they are abstract
here).  Returns the worker's event trace together with the `results`
list the function returns; `none` models a Python type error when a
configuration entry that must be an int is not. -/
def train_func (H : Type) (runFit : Int → H) (config : List (String × PyVal)) :
    Option (List WEvent × List H) :=
  let batchSizeV := dictGetD config "batch_size" (PyVal.int 64)
  let epochsV := dictGetD config "epochs" (PyVal.int 3)
  match PyVal.asInt epochsV, PyVal.asInt batchSizeV with
  | some ne, some nb =>
      some
        ([WEvent.buildModel build_model,
          WEvent.compileModel "adam" "binary_crossentropy" ["accuracy"]] ++
           (pyRange ne).flatMap (fun _ =>
             [WEvent.shardToTf output_column_name label_columns.headI nb,
              WEvent.fitEpoch ["ReportCheckpointCallback"]]),
         (pyRange ne).map runFit)
  | _, _ => none

/-! ### The module tail: trainer set-up, export, upload (lines 154-186) -/

/-- Line 156: the train-loop configuration dictionary handed to every
worker, with `"lr"` taken from the hard-coded `learning_rate`. -/
def trainLoopConfigOf (c : ResolvedEnv) : List (String × PyVal) :=
  [("lr", PyVal.float learning_rate),
   ("batch_size", PyVal.int c.batch_size),
   ("epochs", PyVal.int c.num_epochs)]

/-- Observable pipeline steps touching datasets, local files and the
object-storage bucket. -/
inductive Event : Type
  | readCsv (path : String)
  | scalerFit (columns : List String)
  | scalerTransform
  | concatTransform (columns : List String) (out : String)
  | trainerFit (numWorkers : Int) (useGpu : Bool)
  | pickleDump (localPath : String)
  | uploadFile (localPath : String) (key : String)
  | downloadFile (key : String) (localPath : String)
  | loadKerasModel (localPath : String)
  | convertToOnnx
  | saveOnnxLocal (localPath : String)
deriving DecidableEq

/-- Is this event an upload to the object-storage bucket? -/
def Event.isUpload : Event → Bool
  | Event.uploadFile _ _ => true
  | _ => false

/-- Is this event a download from the object-storage bucket? -/
def Event.isDownload : Event → Bool
  | Event.downloadFile _ _ => true
  | _ => false

/-- Is this event the ONNX conversion? -/
def Event.isConvert : Event → Bool
  | Event.convertToOnnx => true
  | _ => false

/-- Lines 125-133: `save_scalar(scaler)` — pickle the scaler to a temp file
and upload it to the scaler output key. -/
def saveScalarTrace (c : ResolvedEnv) : List Event :=
  [Event.pickleDump "/tmp/scaler.pkl",
   Event.uploadFile "/tmp/scaler.pkl" (scaler_output c)]

/-- Line 140: the in-bucket key of the best checkpoint's saved Keras model,
derived from the checkpoint path by stripping the bucket name. -/
def checkpointKey (c : ResolvedEnv) (checkpointPath : String) : String :=
  strDropPre checkpointPath (pyStrOpt c.bucket_name ++ "/") ++ "/" ++
    keras_model_filename

/-- Lines 136-151: `save_onnx_model(checkpoint_path)` — download the
checkpoint's Keras model, convert it to ONNX, upload the result to the
model output key. -/
def saveOnnxTrace (c : ResolvedEnv) (checkpointPath : String) : List Event :=
  [Event.downloadFile (checkpointKey c checkpointPath) "/tmp/model.keras",
   Event.loadKerasModel "/tmp/model.keras",
   Event.convertToOnnx,
   Event.saveOnnxLocal "/tmp/model.onnx",
   Event.uploadFile "/tmp/model.onnx" (model_output c)]

/-! ### Scaler serialization (the `preprocessor_pkl` metadata entry)

Ray serializes the preprocessor with pickle; `serialize` /
`deserialize` are modelled as an explicit flat encoding of the scaler
into a token stream and its parser. -/

/-- A token of the serialized scaler blob. -/
inductive Tok : Type
  | n (k : Nat)
  | s (x : String)
  | q (x : ℚ)
deriving DecidableEq

/-- Serialize a scaler: length-prefixed column list, then length-prefixed
`(column, mean, std)` statistics. -/
def StandardScaler.serialize (sc : StandardScaler) : List Tok :=
  Tok.n sc.columns.length :: sc.columns.map Tok.s ++
    Tok.n sc.stats.length ::
      sc.stats.flatMap (fun p => [Tok.s p.1, Tok.q p.2.1, Tok.q p.2.2])

/-- Decode `k` string tokens. -/
def decodeStrs : Nat → List Tok → Option (List String × List Tok)
  | 0, rest => some ([], rest)
  | k + 1, Tok.s x :: rest =>
      (decodeStrs k rest).map (fun p => (x :: p.1, p.2))
  | _ + 1, _ => none

/-- Decode `k` per-column statistics triples. -/
def decodeStats : Nat → List Tok → Option (List (String × (ℚ × ℚ)) × List Tok)
  | 0, rest => some ([], rest)
  | k + 1, Tok.s c :: Tok.q m :: Tok.q sd :: rest =>
      (decodeStats k rest).map (fun p => ((c, (m, sd)) :: p.1, p.2))
  | _ + 1, _ => none

/-- Deserialize a scaler blob; `none` on a malformed blob. -/
def StandardScaler.deserialize (toks : List Tok) : Option StandardScaler :=
  match toks with
  | Tok.n k :: rest =>
      match decodeStrs k rest with
      | some (cols, Tok.n m :: rest') =>
          match decodeStats m rest' with
          | some (stats, []) => some { columns := cols, stats := stats }
          | _ => none
      | _ => none
  | _ => none

/-! ### The whole pipeline (module tail, lines 154-186) -/

/-- Everything the script run produces and observes, for a given resolved
configuration, square-root function, raw dataset, and the checkpoint
path the trainer reports back. -/
structure PipelineResult : Type where
  rawData : Dataset
  fittedScaler : StandardScaler
  trainerDataset : Dataset
  trainLoopConfig : List (String × PyVal)
  scalingWorkers : Int
  scalingUseGpu : Bool
  runStoragePath : String
  trainerMetadata : List (String × List Tok)
  resultMetadata : List (String × List Tok)
  checkpointPath : String
  deserializedScaler : Option StandardScaler
  trace : List Event
deriving DecidableEq

/-- Lines 154-186 in order: read the CSV, fit-and-apply the standard
scaler, concatenate the feature columns, run the distributed trainer on
the transformed dataset, read the checkpoint metadata back, then upload
the pickled scaler and the ONNX-converted checkpoint model.  The
framework contract is modelled by `checkpointPath` being abstract and
the result's checkpoint metadata being the metadata the trainer was
given. -/
def pipeline (c : ResolvedEnv) (sqrtQ : ℚ → ℚ) (raw : Dataset)
    (checkpointPath : String) : PipelineResult :=
  let scaler0 : StandardScaler := { columns := feature_columns, stats := [] }
  let fitted := StandardScaler.fit sqrtQ scaler0 raw
  let ds1 := StandardScaler.transformDS fitted raw
  let cc : Concatenator := { cols := feature_columns, out := output_column_name }
  let ds2 := Concatenator.transformDS cc ds1
  let md : List (String × List Tok) :=
    [("preprocessor_pkl", StandardScaler.serialize fitted)]
  { rawData := raw
    fittedScaler := fitted
    trainerDataset := ds2
    trainLoopConfig := trainLoopConfigOf c
    scalingWorkers := c.num_workers
    scalingUseGpu := c.use_gpu
    runStoragePath := pyStrOpt c.bucket_name ++ "/ray/"
    trainerMetadata := md
    resultMetadata := md
    checkpointPath := checkpointPath
    deserializedScaler :=
      StandardScaler.deserialize ((assocFind md "preprocessor_pkl").getD [])
    trace :=
      [Event.readCsv (trainDataPath c),
       Event.scalerFit feature_columns,
       Event.scalerTransform,
       Event.concatTransform feature_columns output_column_name,
       Event.trainerFit c.num_workers c.use_gpu] ++
        saveScalarTrace c ++ saveOnnxTrace c checkpointPath }

/-- The event trace of one run. -/
def pipelineTrace (c : ResolvedEnv) (sqrtQ : ℚ → ℚ) (raw : Dataset)
    (checkpointPath : String) : List Event :=
  (pipeline c sqrtQ raw checkpointPath).trace

/-! ### Well-formedness of the raw dataset -/

/-- The raw CSV has a numeric value in every feature column of every row. -/
def WFDataset (ds : Dataset) : Prop :=
  ∀ r ∈ ds, ∀ col ∈ feature_columns,
    ((rowGet r col).bind Cell.asNum).isSome = true

/-- Modelled from the spec: "the raw dataset with each of the five feature
columns normalized by a mean/variance (standard) scaler fitted on that
dataset, and those five columns then collapsed into a single feature
vector column named `features`".  Each row keeps its non-feature
columns and gains a `features` vector of the five values, each mapped
to `(x - mean) / std` with the statistics computed on the raw dataset
itself. -/
def specTransformedDataset (sqrtQ : ℚ → ℚ) (raw : Dataset) : Dataset :=
  raw.map (fun r =>
    (r.filter (fun kv => decide (kv.1 ∉ feature_columns))) ++
      [("features",
        Cell.vec (feature_columns.filterMap (fun c =>
          ((rowGet r c).bind Cell.asNum).map (fun q =>
            (q - meanOf raw c) / sqrtQ (varOf raw c)))))])

/-! ### Helper lemmas -/

theorem filterMap_congr_mem {α β : Type} (f g : α → Option β) :
    ∀ (l : List α), (∀ a ∈ l, f a = g a) → l.filterMap f = l.filterMap g := by
  intro l
  induction l with
  | nil => intro _; rfl
  | cons a t ih =>
    intro h
    have ha := h a (List.mem_cons_self a t)
    simp only [List.filterMap_cons, ha, ih (fun x hx => h x (List.mem_cons_of_mem a hx))]

theorem map_congr_mem {α β : Type} (f g : α → β) :
    ∀ (l : List α), (∀ a ∈ l, f a = g a) → l.map f = l.map g := by
  intro l
  induction l with
  | nil => intro _; rfl
  | cons a t ih =>
    intro h
    have ha := h a (List.mem_cons_self a t)
    simp only [List.map_cons, ha, ih (fun x hx => h x (List.mem_cons_of_mem a hx))]

theorem assocFind_map_self {α : Type} (f : String → α) :
    ∀ (cols : List String) (k : String),
      assocFind (cols.map fun c => (c, f c)) k =
        if k ∈ cols then some (f k) else none := by
  intro cols
  induction cols with
  | nil => intro k; simp [assocFind]
  | cons c t ih =>
    intro k
    by_cases h : k = c
    · subst h
      simp [assocFind]
    · simp [assocFind, h, ih k, List.mem_cons]

theorem rowGet_scaleRow (s : StandardScaler) (k : String) :
    ∀ (r : Row), rowGet (scaleRow s r) k = (rowGet r k).map (scaleCell s k) := by
  intro r
  induction r with
  | nil => rfl
  | cons kv t ih =>
    by_cases h : k = kv.1
    · simp [scaleRow, rowGet, assocFind, h]
    · simpa [scaleRow, rowGet, assocFind, h] using ih

theorem filter_scaleRow (s : StandardScaler) (cols : List String)
    (hcols : s.columns = cols) :
    ∀ (r : Row),
      (scaleRow s r).filter (fun kv => decide (kv.1 ∉ cols)) =
        r.filter (fun kv => decide (kv.1 ∉ cols)) := by
  subst hcols
  intro r
  induction r with
  | nil => rfl
  | cons kv t ih =>
    by_cases h : kv.1 ∈ s.columns
    · simp [scaleRow, List.filter_cons, h] at ih ⊢
      exact ih
    · simp [scaleRow, List.filter_cons, h, scaleCell] at ih ⊢
      exact ih

theorem sum_sq_nonneg (m : ℚ) (l : List ℚ) :
    0 ≤ (l.map (fun x => (x - m) ^ 2)).sum := by
  apply List.sum_nonneg
  intro x hx
  rcases List.mem_map.mp hx with ⟨y, _, rfl⟩
  exact sq_nonneg _

theorem eq_of_sum_sq_zero (m : ℚ) :
    ∀ (l : List ℚ), (l.map (fun x => (x - m) ^ 2)).sum = 0 →
      ∀ x ∈ l, x = m := by
  intro l
  induction l with
  | nil => simp
  | cons a t ih =>
    intro h x hx
    simp only [List.map_cons, List.sum_cons] at h
    have h1 : (0 : ℚ) ≤ (a - m) ^ 2 := sq_nonneg _
    have h2 : (0 : ℚ) ≤ (t.map (fun x => (x - m) ^ 2)).sum := sum_sq_nonneg m t
    have ha : (a - m) ^ 2 = 0 := by linarith
    have ht : (t.map (fun x => (x - m) ^ 2)).sum = 0 := by linarith
    rcases List.mem_cons.mp hx with rfl | hx'
    · have := sq_eq_zero_iff.mp ha
      linarith [sub_eq_zero.mp this]
    · exact ih ht x hx'

/-- A column with zero variance is constantly equal to its mean. -/
theorem colValue_eq_mean_of_var_zero (ds : Dataset) (c : String)
    (h : varOf ds c = 0) : ∀ x ∈ colValues ds c, x = meanOf ds c := by
  unfold varOf at h
  rcases div_eq_zero_iff.mp h with hs | hl
  · exact eq_of_sum_sq_zero _ _ hs
  · have hn : (colValues ds c).length = 0 := by exact_mod_cast hl
    have he : colValues ds c = [] := List.length_eq_zero.mp hn
    simp [he]

theorem mem_colValues (ds : Dataset) (c : String) (r : Row) (q : ℚ)
    (hr : r ∈ ds) (hq : (rowGet r c).bind Cell.asNum = some q) :
    q ∈ colValues ds c :=
  List.mem_filterMap.mpr ⟨r, hr, hq⟩

/-- On a value of the dataset the scaler was fitted on, the scaler's guarded
normalization agrees with the plain `(x - mean) / std` of the spec: the
guard only fires on a zero-variance column, where the value is the mean
and both sides are 0. -/
theorem scaleVal_fit (sqrtQ : ℚ → ℚ) (h0 : ∀ q, sqrtQ q = 0 → q = 0)
    (raw : Dataset) (c : String) (hc : c ∈ feature_columns) (q : ℚ)
    (hq : q ∈ colValues raw c) :
    scaleVal (feature_columns.map fun col =>
        (col, (meanOf raw col, sqrtQ (varOf raw col)))) c q =
      (q - meanOf raw c) / sqrtQ (varOf raw c) := by
  unfold scaleVal
  rw [assocFind_map_self (fun col => (meanOf raw col, sqrtQ (varOf raw col)))
      feature_columns c]
  simp only [hc, if_true, Option.map_some, Option.getD_some]
  by_cases hz : sqrtQ (varOf raw c) = 0
  · have hv : varOf raw c = 0 := h0 _ hz
    have hm : q = meanOf raw c := colValue_eq_mean_of_var_zero raw c hv q hq
    simp [hz, hm]
  · simp [hz]

/-- One row of the scaler-then-concatenator composition equals the
corresponding spec-modelled row. -/
theorem concatRow_scaleRow_spec (sqrtQ : ℚ → ℚ)
    (h0 : ∀ q, sqrtQ q = 0 → q = 0) (raw : Dataset) (r : Row) (hr : r ∈ raw)
    (hwr : ∀ col ∈ feature_columns,
      ((rowGet r col).bind Cell.asNum).isSome = true) :
    concatRow ⟨feature_columns, output_column_name⟩
        (scaleRow (StandardScaler.fit sqrtQ ⟨feature_columns, []⟩ raw) r) =
      (r.filter (fun kv => decide (kv.1 ∉ feature_columns))) ++
        [("features",
          Cell.vec (feature_columns.filterMap (fun c =>
            ((rowGet r c).bind Cell.asNum).map (fun q =>
              (q - meanOf raw c) / sqrtQ (varOf raw c)))))] := by
  unfold concatRow
  dsimp only
  have hB :
      List.filterMap (fun c =>
          (rowGet (scaleRow (StandardScaler.fit sqrtQ ⟨feature_columns, []⟩ raw) r) c).bind
            Cell.asNum) feature_columns =
        List.filterMap (fun c =>
          ((rowGet r c).bind Cell.asNum).map (fun q =>
            (q - meanOf raw c) / sqrtQ (varOf raw c))) feature_columns := by
    apply filterMap_congr_mem
    intro c hc
    rw [rowGet_scaleRow (StandardScaler.fit sqrtQ ⟨feature_columns, []⟩ raw) c r]
    obtain ⟨q, hq⟩ := Option.isSome_iff_exists.mp (hwr c hc)
    cases hcell : rowGet r c with
    | none => rw [hcell] at hq; simp at hq
    | some cell =>
      cases cell with
      | vec v => rw [hcell] at hq; simp [Cell.asNum] at hq
      | num q' =>
        have hq' : q' ∈ colValues raw c := by
          apply mem_colValues raw c r q' hr
          rw [hcell]; rfl
        have hsv := scaleVal_fit sqrtQ h0 raw c hc q' hq'
        simp [scaleCell, StandardScaler.fit, hc, Cell.asNum, hsv]
  rw [filter_scaleRow (StandardScaler.fit sqrtQ ⟨feature_columns, []⟩ raw)
      feature_columns rfl r, hB]
  rfl

/-- The scaler-then-concatenator composition of the script equals the
spec-modelled transformed dataset. -/
theorem transformed_eq_spec (sqrtQ : ℚ → ℚ) (h0 : ∀ q, sqrtQ q = 0 → q = 0)
    (raw : Dataset) (hwf : WFDataset raw) :
    Concatenator.transformDS ⟨feature_columns, output_column_name⟩
        (StandardScaler.transformDS
          (StandardScaler.fit sqrtQ ⟨feature_columns, []⟩ raw) raw) =
      specTransformedDataset sqrtQ raw := by
  unfold Concatenator.transformDS StandardScaler.transformDS
    specTransformedDataset
  rw [List.map_map]
  apply map_congr_mem
  intro r hr
  exact concatRow_scaleRow_spec sqrtQ h0 raw r hr (hwf r hr)

theorem decodeStrs_encode (rest : List Tok) :
    ∀ (l : List String),
      decodeStrs l.length (l.map Tok.s ++ rest) = some (l, rest) := by
  intro l
  induction l with
  | nil => rfl
  | cons a t ih => simp [decodeStrs, ih]

theorem decodeStats_encode (rest : List Tok) :
    ∀ (l : List (String × (ℚ × ℚ))),
      decodeStats l.length
          (l.flatMap (fun p => [Tok.s p.1, Tok.q p.2.1, Tok.q p.2.2]) ++ rest) =
        some (l, rest) := by
  intro l
  induction l with
  | nil => rfl
  | cons a t ih =>
    simp only [List.length_cons, List.flatMap_cons, List.cons_append,
      List.append_assoc]
    simp [decodeStats, ih]

/-- Deserializing a serialized scaler recovers the scaler. -/
theorem serialize_roundTrip (sc : StandardScaler) :
    StandardScaler.deserialize (StandardScaler.serialize sc) = some sc := by
  have h1 := decodeStrs_encode
    (Tok.n sc.stats.length ::
      sc.stats.flatMap (fun p => [Tok.s p.1, Tok.q p.2.1, Tok.q p.2.2]))
    sc.columns
  have h2 : decodeStats sc.stats.length
      (sc.stats.flatMap (fun p => [Tok.s p.1, Tok.q p.2.1, Tok.q p.2.2])) =
        some (sc.stats, []) := by
    have h := decodeStats_encode [] sc.stats
    simpa using h
  simp [StandardScaler.serialize, StandardScaler.deserialize, h1, h2]

instance (ds : Dataset) : Decidable (WFDataset ds) := by
  unfold WFDataset
  infer_instance

/-! ### Concrete fixtures used by the witnesses -/

/-- The environment with every variable unset. -/
def envEmpty : Env := fun _ => none

/-- The configuration the script resolves under the empty environment. -/
def cDefault : ResolvedEnv :=
  { use_gpu := false
    num_workers := 1
    num_epochs := 2
    batch_size := 64
    aws_access_key_id := none
    aws_secret_access_key := none
    endpoint_url := none
    region_name := none
    bucket_name := none
    train_data := "data/train.csv"
    model_output_dir := "models/fraud/1/"
    model_output_filename := "model.onnx" }

/-- A small concrete raw dataset with the five feature columns and the
fraud label. -/
def rawSample : Dataset :=
  [[("distance_from_last_transaction", Cell.num 1),
    ("ratio_to_median_purchase_price", Cell.num 2),
    ("used_chip", Cell.num 1),
    ("used_pin_number", Cell.num 0),
    ("online_order", Cell.num 1),
    ("fraud", Cell.num 0)],
   [("distance_from_last_transaction", Cell.num 3),
    ("ratio_to_median_purchase_price", Cell.num 2),
    ("used_chip", Cell.num 0),
    ("used_pin_number", Cell.num 0),
    ("online_order", Cell.num 1),
    ("fraud", Cell.num 1)]]

/-! ### The claims -/

/-- C1: the dataset handed to the distributed trainer is the raw dataset
with the five feature columns standard-scaled by a scaler fitted on that
same dataset and collapsed into the single vector column `features`
(matching the spec-modelled `specTransformedDataset`), and it is derived
in memory: the run's only object-storage uploads are the scaler pickle
and the ONNX model, never the transformed dataset. -/
theorem C1_transformed_dataset (sqrtQ : ℚ → ℚ)
    (h0 : ∀ q, sqrtQ q = 0 → q = 0) (c : ResolvedEnv) (raw : Dataset)
    (cp : String) (hwf : WFDataset raw) :
    (pipeline c sqrtQ raw cp).trainerDataset = specTransformedDataset sqrtQ raw
    ∧ (pipeline c sqrtQ raw cp).trace.filter Event.isUpload =
        [Event.uploadFile "/tmp/scaler.pkl" (scaler_output c),
         Event.uploadFile "/tmp/model.onnx" (model_output c)] := by
  constructor
  · exact transformed_eq_spec sqrtQ h0 raw hwf
  · simp [pipeline, saveScalarTrace, saveOnnxTrace, Event.isUpload, List.filter]

theorem C1_transformed_dataset_witness :
    WFDataset rawSample
    ∧ ((pipeline cDefault id rawSample "ck").trainerDataset =
          specTransformedDataset id rawSample
      ∧ (pipeline cDefault id rawSample "ck").trace.filter Event.isUpload =
          [Event.uploadFile "/tmp/scaler.pkl" (scaler_output cDefault),
           Event.uploadFile "/tmp/model.onnx" (model_output cDefault)]) :=
  ⟨by decide,
   C1_transformed_dataset id (fun _ h => h) cDefault rawSample "ck" (by decide)⟩

/-- C10: the fitted scaler round-trips through the trainer's checkpoint
metadata: the `preprocessor_pkl` entry of the result metadata is the
serialized fitted scaler, and deserializing it yields exactly the fitted
scaler (deserialize after serialize is the identity here), which is what
the script's final `StandardScaler.deserialize` call observes. -/
theorem C10_scaler_roundtrip (c : ResolvedEnv) (sqrtQ : ℚ → ℚ) (raw : Dataset)
    (cp : String) :
    assocFind (pipeline c sqrtQ raw cp).resultMetadata "preprocessor_pkl" =
        some (StandardScaler.serialize (pipeline c sqrtQ raw cp).fittedScaler)
    ∧ StandardScaler.deserialize
        (StandardScaler.serialize (pipeline c sqrtQ raw cp).fittedScaler) =
        some (pipeline c sqrtQ raw cp).fittedScaler
    ∧ (pipeline c sqrtQ raw cp).deserializedScaler =
        some (pipeline c sqrtQ raw cp).fittedScaler := by
  refine ⟨by simp [pipeline, assocFind], serialize_roundTrip _, ?_⟩
  have h : (pipeline c sqrtQ raw cp).deserializedScaler =
      StandardScaler.deserialize
        (StandardScaler.serialize (pipeline c sqrtQ raw cp).fittedScaler) := by
    simp [pipeline, assocFind]
  rw [h, serialize_roundTrip]

theorem C10_scaler_roundtrip_witness :
    assocFind (pipeline cDefault id rawSample "ck2").resultMetadata
        "preprocessor_pkl" =
      some (StandardScaler.serialize
        (pipeline cDefault id rawSample "ck2").fittedScaler)
    ∧ StandardScaler.deserialize
        (StandardScaler.serialize
          (pipeline cDefault id rawSample "ck2").fittedScaler) =
        some (pipeline cDefault id rawSample "ck2").fittedScaler
    ∧ (pipeline cDefault id rawSample "ck2").deserializedScaler =
        some (pipeline cDefault id rawSample "ck2").fittedScaler :=
  C10_scaler_roundtrip cDefault id rawSample "ck2"

/-- An environment that tries to configure the learning rate through the
obvious environment variables. -/
def envLR : Env := fun k =>
  if k = "LEARNING_RATE" then some "0.5"
  else if k = "LR" then some "0.5"
  else none

/-- C2 counterexample: the claim says the learning rate is sourced from an
environment variable with a default, but the script hard-codes
`learning_rate = 1e-3`: under an environment that sets
`LEARNING_RATE`/`LR` to `0.5` the resolved train-loop configuration
still carries `lr = 1/1000`, exactly as under the empty environment. -/
theorem C2_learning_rate_not_env_cex :
    learning_rate = 1 / 1000
    ∧ (resolveEnv envLR).map
        (fun c => dictGetD (trainLoopConfigOf c) "lr" (PyVal.int 0)) =
      some (PyVal.float learning_rate)
    ∧ (resolveEnv envEmpty).map
        (fun c => dictGetD (trainLoopConfigOf c) "lr" (PyVal.int 0)) =
      some (PyVal.float learning_rate) := by
  have hLR : resolveEnv envLR = some cDefault := by decide
  have hE : resolveEnv envEmpty = some cDefault := by decide
  refine ⟨rfl, ?_, ?_⟩
  · rw [hLR]; rfl
  · rw [hE]; rfl

/-- C2 (amended): batch size, epoch count, worker count and the accelerator
flag are sourced from environment variables with defaults (`USE_GPU`
false, `NUM_WORKERS` 1, `NUM_EPOCHS` 2, `BATCH_SIZE` 64), so any
environment leaving them unset resolves to the defaults; the learning
rate, by contrast, is the hard-coded constant `1e-3` and is the `lr`
entry of the train-loop configuration in every resolved run. -/
theorem C2_env_defaults (env : Env)
    (h1 : env "USE_GPU" = none) (h2 : env "NUM_WORKERS" = none)
    (h3 : env "NUM_EPOCHS" = none) (h4 : env "BATCH_SIZE" = none) :
    (∃ c, resolveEnv env = some c
      ∧ c.use_gpu = false ∧ c.num_workers = 1 ∧ c.num_epochs = 2
      ∧ c.batch_size = 64)
    ∧ ∀ (env' : Env) (c' : ResolvedEnv), resolveEnv env' = some c' →
        dictGetD (trainLoopConfigOf c') "lr" (PyVal.int 0) =
          PyVal.float learning_rate := by
  constructor
  · have e1 : pyInt "1" = some 1 := by decide
    have e2 : pyInt "2" = some 2 := by decide
    have e64 : pyInt "64" = some 64 := by decide
    have egpu : (pyLower "False" == "true") = false := by decide
    refine ⟨{ use_gpu := false, num_workers := 1, num_epochs := 2,
              batch_size := 64,
              aws_access_key_id := env "AWS_ACCESS_KEY_ID",
              aws_secret_access_key := env "AWS_SECRET_ACCESS_KEY",
              endpoint_url := env "AWS_S3_ENDPOINT",
              region_name := env "AWS_DEFAULT_REGION",
              bucket_name := env "AWS_S3_BUCKET",
              train_data := envGetD env "TRAIN_DATA" "data/train.csv",
              model_output_dir := envGetD env "MODEL_OUTPUT" "models/fraud/1/",
              model_output_filename :=
                envGetD env "MODEL_OUTPUT_FILENAME" "model.onnx" },
            ?_, rfl, rfl, rfl, rfl⟩
    unfold resolveEnv envGetD
    rw [h1, h2, h3, h4]
    simp [e1, e2, e64, egpu]
  · intro env' c' _
    rfl

theorem C2_env_defaults_witness :
    (envEmpty "USE_GPU" = none ∧ envEmpty "NUM_WORKERS" = none
      ∧ envEmpty "NUM_EPOCHS" = none ∧ envEmpty "BATCH_SIZE" = none)
    ∧ ((∃ c, resolveEnv envEmpty = some c
        ∧ c.use_gpu = false ∧ c.num_workers = 1 ∧ c.num_epochs = 2
        ∧ c.batch_size = 64)
      ∧ ∀ (env' : Env) (c' : ResolvedEnv), resolveEnv env' = some c' →
          dictGetD (trainLoopConfigOf c') "lr" (PyVal.int 0) =
            PyVal.float learning_rate) :=
  ⟨⟨rfl, rfl, rfl, rfl⟩, C2_env_defaults envEmpty rfl rfl rfl rfl⟩

/-- C6: the raw dataset is read as a CSV from the object-storage path
`s3://{bucket}/{train_data}` (the first event of every run), and the
pipeline's column model is exactly the five named transaction feature
columns and the single binary label column `fraud`. -/
theorem C6_raw_dataset_columns (c : ResolvedEnv) (sqrtQ : ℚ → ℚ)
    (raw : Dataset) (cp : String) :
    feature_columns =
      ["distance_from_last_transaction", "ratio_to_median_purchase_price",
       "used_chip", "used_pin_number", "online_order"]
    ∧ feature_columns.length = 5
    ∧ label_columns = ["fraud"]
    ∧ label_columns.length = 1
    ∧ (pipelineTrace c sqrtQ raw cp).head? =
        some (Event.readCsv
          ("s3://" ++ pyStrOpt c.bucket_name ++ "/" ++ c.train_data)) := by
  refine ⟨rfl, rfl, rfl, rfl, ?_⟩
  simp [pipelineTrace, pipeline, trainDataPath]

theorem C6_raw_dataset_columns_witness :
    feature_columns =
      ["distance_from_last_transaction", "ratio_to_median_purchase_price",
       "used_chip", "used_pin_number", "online_order"]
    ∧ feature_columns.length = 5
    ∧ label_columns = ["fraud"]
    ∧ label_columns.length = 1
    ∧ (pipelineTrace cDefault id rawSample "ck").head? =
        some (Event.readCsv
          ("s3://" ++ pyStrOpt cDefault.bucket_name ++ "/" ++
            cDefault.train_data)) :=
  C6_raw_dataset_columns cDefault id rawSample "ck"

/-- An environment whose model-output location lacks a trailing slash. -/
def envNoSlash : Env := fun k =>
  if k = "MODEL_OUTPUT" then some "models/fraud" else none

/-- C9: the scaler and model output keys are plain string concatenations of
the configured output location with `scaler.pkl` and with the output
filename; no path separator is inserted, so the location `models/fraud`
(no trailing slash) yields the keys `models/fraudscaler.pkl` and
`models/fraudmodel.onnx`. -/
theorem C9_output_key_concatenation (c : ResolvedEnv) :
    scaler_output c = c.model_output_dir ++ "scaler.pkl"
    ∧ model_output c = c.model_output_dir ++ c.model_output_filename
    ∧ (resolveEnv envNoSlash).map scaler_output =
        some "models/fraudscaler.pkl"
    ∧ (resolveEnv envNoSlash).map model_output =
        some "models/fraudmodel.onnx" :=
  ⟨rfl, rfl, by decide, by decide⟩

theorem C9_output_key_concatenation_witness :
    scaler_output cDefault = cDefault.model_output_dir ++ "scaler.pkl"
    ∧ model_output cDefault =
        cDefault.model_output_dir ++ cDefault.model_output_filename
    ∧ (resolveEnv envNoSlash).map scaler_output =
        some "models/fraudscaler.pkl"
    ∧ (resolveEnv envNoSlash).map model_output =
        some "models/fraudmodel.onnx" :=
  C9_output_key_concatenation cDefault

theorem pyRange_length (n : Int) (hn : 0 ≤ n) :
    (pyRange n).length = n.toNat := by
  unfold pyRange
  by_cases h : n ≤ 0
  · have h0 : n = 0 := le_antisymm h hn
    simp [h0]
  · simp [h]

theorem countP_flatMap_pair {α : Type} (p : α → Bool) (x y : α)
    (hx : p x = false) (hy : p y = true) :
    ∀ (l : List Int), ((l.flatMap fun _ => [x, y]).countP p) = l.length := by
  intro l
  induction l with
  | nil => rfl
  | cons a t ih =>
    simp [List.flatMap_cons, List.countP_append, List.countP_cons, hx, hy,
      ih, Nat.add_comm]

theorem filter_flatMap_pair_nil {α : Type} (p : α → Bool) (x y : α)
    (hx : p x = false) (hy : p y = false) :
    ∀ (l : List Int), (l.flatMap fun _ => [x, y]).filter p = [] := by
  intro l
  induction l with
  | nil => rfl
  | cons a t ih =>
    simp [List.flatMap_cons, List.filter_append, List.filter_cons, hx, hy, ih]

/-- C3: for a per-worker configuration whose `epochs` entry is `n ≥ 0`, the
per-worker function builds the feed-forward model exactly once (input
dimension 5 = number of feature columns, one sigmoid output unit), runs
exactly `n` epoch iterations — each batching the worker's shard at the
configured batch size via `to_tf` and fitting with the
checkpoint-reporting callback — and returns exactly `n` per-epoch
history records. -/
theorem C3_train_func_epochs (H : Type) (runFit : Int → H)
    (config : List (String × PyVal)) (n b : Int) (hn : 0 ≤ n)
    (he : dictGetD config "epochs" (PyVal.int 3) = PyVal.int n)
    (hb : dictGetD config "batch_size" (PyVal.int 64) = PyVal.int b) :
    ∃ evs results, train_func H runFit config = some (evs, results)
      ∧ evs.filter WEvent.isBuild = [WEvent.buildModel build_model]
      ∧ evs.countP WEvent.isFit = n.toNat
      ∧ (∀ e ∈ evs, WEvent.isToTf e = true →
          e = WEvent.shardToTf "features" "fraud" b)
      ∧ (∀ e ∈ evs, WEvent.isFit e = true →
          e = WEvent.fitEpoch ["ReportCheckpointCallback"])
      ∧ results.length = n.toNat
      ∧ build_model.head? =
          some (Layer.dense 32 (some "relu") (some feature_columns.length))
      ∧ build_model.getLast? = some (Layer.dense 1 (some "sigmoid") none) := by
  have hred : train_func H runFit config =
      some
        ([WEvent.buildModel build_model,
          WEvent.compileModel "adam" "binary_crossentropy" ["accuracy"]] ++
           (pyRange n).flatMap (fun _ =>
             [WEvent.shardToTf output_column_name label_columns.headI b,
              WEvent.fitEpoch ["ReportCheckpointCallback"]]),
         (pyRange n).map runFit) := by
    unfold train_func
    rw [he, hb]
    rfl
  refine ⟨_, _, hred, ?_, ?_, ?_, ?_, ?_, rfl, rfl⟩
  · rw [List.filter_append,
      filter_flatMap_pair_nil WEvent.isBuild
        (WEvent.shardToTf output_column_name label_columns.headI b)
        (WEvent.fitEpoch ["ReportCheckpointCallback"]) rfl rfl (pyRange n)]
    rfl
  · rw [List.countP_append,
      countP_flatMap_pair WEvent.isFit
        (WEvent.shardToTf output_column_name label_columns.headI b)
        (WEvent.fitEpoch ["ReportCheckpointCallback"]) rfl rfl (pyRange n),
      pyRange_length n hn]
    simp [List.countP_cons, WEvent.isFit]
  · intro e hme htf
    rcases List.mem_append.mp hme with hpre | hflat
    · rcases List.mem_cons.mp hpre with rfl | hpre'
      · simp [WEvent.isToTf] at htf
      · rcases List.mem_cons.mp hpre' with rfl | habs
        · simp [WEvent.isToTf] at htf
        · exact absurd habs (List.not_mem_nil _)
    · rcases List.mem_flatMap.mp hflat with ⟨i, _, hi⟩
      rcases List.mem_cons.mp hi with rfl | hi'
      · rfl
      · rcases List.mem_cons.mp hi' with rfl | habs
        · simp [WEvent.isToTf] at htf
        · exact absurd habs (List.not_mem_nil _)
  · intro e hme hft
    rcases List.mem_append.mp hme with hpre | hflat
    · rcases List.mem_cons.mp hpre with rfl | hpre'
      · simp [WEvent.isFit] at hft
      · rcases List.mem_cons.mp hpre' with rfl | habs
        · simp [WEvent.isFit] at hft
        · exact absurd habs (List.not_mem_nil _)
    · rcases List.mem_flatMap.mp hflat with ⟨i, _, hi⟩
      rcases List.mem_cons.mp hi with rfl | hi'
      · simp [WEvent.isFit] at hft
      · rcases List.mem_cons.mp hi' with rfl | habs
        · rfl
        · exact absurd habs (List.not_mem_nil _)
  · rw [List.length_map, pyRange_length n hn]

theorem C3_train_func_epochs_witness :
    (0 : Int) ≤ 2
    ∧ (∃ evs results,
        train_func Bool (fun _ => true)
            [("epochs", PyVal.int 2), ("batch_size", PyVal.int 32)] =
          some (evs, results)
        ∧ evs.filter WEvent.isBuild = [WEvent.buildModel build_model]
        ∧ evs.countP WEvent.isFit = (2 : Int).toNat
        ∧ (∀ e ∈ evs, WEvent.isToTf e = true →
            e = WEvent.shardToTf "features" "fraud" 32)
        ∧ (∀ e ∈ evs, WEvent.isFit e = true →
            e = WEvent.fitEpoch ["ReportCheckpointCallback"])
        ∧ results.length = (2 : Int).toNat
        ∧ build_model.head? =
            some (Layer.dense 32 (some "relu") (some feature_columns.length))
        ∧ build_model.getLast? = some (Layer.dense 1 (some "sigmoid") none)) :=
  ⟨by decide,
   C3_train_func_epochs Bool (fun _ => true)
     [("epochs", PyVal.int 2), ("batch_size", PyVal.int 32)] 2 32
     (by decide) (by decide) (by decide)⟩

/-- C8: the train-loop configuration dictionary always carries the keys
`lr`, `batch_size` and `epochs` (so the per-worker fallback defaults 64
and 3 are unreachable — the lookups return the configured values
whatever the fallback), the model is compiled with the optimizer named
`adam`, and the `lr` entry is never read: `train_func` returns the
same result for any two values of the `lr` entry. -/
theorem C8_config_keys_lr_unused (H : Type) (runFit : Int → H)
    (c : ResolvedEnv) (v w d1 d2 d3 : PyVal) :
    dictGetD (trainLoopConfigOf c) "lr" d1 = PyVal.float learning_rate
    ∧ dictGetD (trainLoopConfigOf c) "batch_size" d2 = PyVal.int c.batch_size
    ∧ dictGetD (trainLoopConfigOf c) "epochs" d3 = PyVal.int c.num_epochs
    ∧ train_func H runFit
        [("lr", v), ("batch_size", PyVal.int c.batch_size),
         ("epochs", PyVal.int c.num_epochs)] =
      train_func H runFit
        [("lr", w), ("batch_size", PyVal.int c.batch_size),
         ("epochs", PyVal.int c.num_epochs)]
    ∧ trainLoopConfigOf c =
        [("lr", PyVal.float learning_rate),
         ("batch_size", PyVal.int c.batch_size),
         ("epochs", PyVal.int c.num_epochs)]
    ∧ ∀ evs results,
        train_func H runFit (trainLoopConfigOf c) = some (evs, results) →
        WEvent.compileModel "adam" "binary_crossentropy" ["accuracy"] ∈ evs := by
  refine ⟨rfl, rfl, rfl, rfl, rfl, ?_⟩
  intro evs results h
  rw [show train_func H runFit (trainLoopConfigOf c) =
      some
        ([WEvent.buildModel build_model,
          WEvent.compileModel "adam" "binary_crossentropy" ["accuracy"]] ++
           (pyRange c.num_epochs).flatMap (fun _ =>
             [WEvent.shardToTf output_column_name label_columns.headI
                c.batch_size,
              WEvent.fitEpoch ["ReportCheckpointCallback"]]),
         (pyRange c.num_epochs).map runFit) from rfl] at h
  injection h with h1
  injection h1 with h2 h3
  subst h2
  simp

theorem C8_config_keys_lr_unused_witness :
    dictGetD (trainLoopConfigOf cDefault) "lr" (PyVal.int 0) =
        PyVal.float learning_rate
    ∧ dictGetD (trainLoopConfigOf cDefault) "batch_size" (PyVal.int 0) =
        PyVal.int cDefault.batch_size
    ∧ dictGetD (trainLoopConfigOf cDefault) "epochs" (PyVal.int 0) =
        PyVal.int cDefault.num_epochs
    ∧ train_func Bool (fun _ => true)
        [("lr", PyVal.int 7), ("batch_size", PyVal.int cDefault.batch_size),
         ("epochs", PyVal.int cDefault.num_epochs)] =
      train_func Bool (fun _ => true)
        [("lr", PyVal.str "x"), ("batch_size", PyVal.int cDefault.batch_size),
         ("epochs", PyVal.int cDefault.num_epochs)]
    ∧ trainLoopConfigOf cDefault =
        [("lr", PyVal.float learning_rate),
         ("batch_size", PyVal.int cDefault.batch_size),
         ("epochs", PyVal.int cDefault.num_epochs)]
    ∧ ∀ evs results,
        train_func Bool (fun _ => true) (trainLoopConfigOf cDefault) =
          some (evs, results) →
        WEvent.compileModel "adam" "binary_crossentropy" ["accuracy"] ∈ evs :=
  C8_config_keys_lr_unused Bool (fun _ => true) cDefault (PyVal.int 7)
    (PyVal.str "x") (PyVal.int 0) (PyVal.int 0) (PyVal.int 0)

/-- C4: after `trainer.fit()` returns, and only then, the script pickles
and uploads the fitted scaler to the scaler output key, downloads the
best checkpoint's saved Keras model (the checkpoint path with the
`{bucket}/` prefix stripped, plus `/model.keras`), converts it to ONNX
and uploads the conversion to the model output key. -/
theorem C4_post_fit_export (c : ResolvedEnv) (sqrtQ : ℚ → ℚ) (raw : Dataset)
    (cp : String) :
    ∃ pre, pipelineTrace c sqrtQ raw cp =
      pre ++
        [Event.trainerFit c.num_workers c.use_gpu,
         Event.pickleDump "/tmp/scaler.pkl",
         Event.uploadFile "/tmp/scaler.pkl" (scaler_output c),
         Event.downloadFile
           (strDropPre cp (pyStrOpt c.bucket_name ++ "/") ++ "/" ++
             keras_model_filename)
           "/tmp/model.keras",
         Event.loadKerasModel "/tmp/model.keras",
         Event.convertToOnnx,
         Event.saveOnnxLocal "/tmp/model.onnx",
         Event.uploadFile "/tmp/model.onnx" (model_output c)] := by
  refine ⟨[Event.readCsv (trainDataPath c),
           Event.scalerFit feature_columns,
           Event.scalerTransform,
           Event.concatTransform feature_columns output_column_name], ?_⟩
  rfl

theorem C4_post_fit_export_witness :
    ∃ pre, pipelineTrace cDefault id rawSample "ck4" =
      pre ++
        [Event.trainerFit cDefault.num_workers cDefault.use_gpu,
         Event.pickleDump "/tmp/scaler.pkl",
         Event.uploadFile "/tmp/scaler.pkl" (scaler_output cDefault),
         Event.downloadFile
           (strDropPre "ck4" (pyStrOpt cDefault.bucket_name ++ "/") ++ "/" ++
             keras_model_filename)
           "/tmp/model.keras",
         Event.loadKerasModel "/tmp/model.keras",
         Event.convertToOnnx,
         Event.saveOnnxLocal "/tmp/model.onnx",
         Event.uploadFile "/tmp/model.onnx" (model_output cDefault)] :=
  C4_post_fit_export cDefault id rawSample "ck4"

/-- C5: in every run the scaler is fitted and applied, and the
concatenation done, strictly before the distributed training event; no
upload, download or conversion precedes the completion of
`trainer.fit()`; the conversion and the model upload happen after it;
and the only object-storage read after training is of the checkpoint
that the training itself produced (the CSV read at the start consumes
the pre-existing input, and every output key is created by an upload). -/
theorem C5_pipeline_ordering (c : ResolvedEnv) (sqrtQ : ℚ → ℚ) (raw : Dataset)
    (cp : String) :
    ∃ a b, pipelineTrace c sqrtQ raw cp =
        a ++ Event.trainerFit c.num_workers c.use_gpu :: b
      ∧ Event.scalerFit feature_columns ∈ a
      ∧ Event.scalerTransform ∈ a
      ∧ Event.concatTransform feature_columns output_column_name ∈ a
      ∧ (∀ e ∈ a, e.isUpload = false ∧ e.isDownload = false
          ∧ e.isConvert = false)
      ∧ Event.convertToOnnx ∈ b
      ∧ Event.uploadFile "/tmp/model.onnx" (model_output c) ∈ b
      ∧ (∀ e ∈ b, e.isDownload = true →
          e = Event.downloadFile (checkpointKey c cp) "/tmp/model.keras") := by
  refine ⟨[Event.readCsv (trainDataPath c),
           Event.scalerFit feature_columns,
           Event.scalerTransform,
           Event.concatTransform feature_columns output_column_name],
          [Event.pickleDump "/tmp/scaler.pkl",
           Event.uploadFile "/tmp/scaler.pkl" (scaler_output c),
           Event.downloadFile (checkpointKey c cp) "/tmp/model.keras",
           Event.loadKerasModel "/tmp/model.keras",
           Event.convertToOnnx,
           Event.saveOnnxLocal "/tmp/model.onnx",
           Event.uploadFile "/tmp/model.onnx" (model_output c)],
          rfl, ?_, ?_, ?_, ?_, ?_, ?_, ?_⟩
  · simp
  · simp
  · simp
  · intro e he
    simp at he
    rcases he with rfl | rfl | rfl | rfl <;> exact ⟨rfl, rfl, rfl⟩
  · simp
  · simp
  · intro e he hd
    simp at he
    rcases he with rfl | rfl | rfl | rfl | rfl | rfl | rfl
    · simp [Event.isDownload] at hd
    · simp [Event.isDownload] at hd
    · rfl
    · simp [Event.isDownload] at hd
    · simp [Event.isDownload] at hd
    · simp [Event.isDownload] at hd
    · simp [Event.isDownload] at hd

theorem C5_pipeline_ordering_witness :
    ∃ a b, pipelineTrace cDefault id rawSample "ck5" =
        a ++ Event.trainerFit cDefault.num_workers cDefault.use_gpu :: b
      ∧ Event.scalerFit feature_columns ∈ a
      ∧ Event.scalerTransform ∈ a
      ∧ Event.concatTransform feature_columns output_column_name ∈ a
      ∧ (∀ e ∈ a, e.isUpload = false ∧ e.isDownload = false
          ∧ e.isConvert = false)
      ∧ Event.convertToOnnx ∈ b
      ∧ Event.uploadFile "/tmp/model.onnx" (model_output cDefault) ∈ b
      ∧ (∀ e ∈ b, e.isDownload = true →
          e = Event.downloadFile (checkpointKey cDefault "ck5")
            "/tmp/model.keras") :=
  C5_pipeline_ordering cDefault id rawSample "ck5"

theorem isPrefixOf_append_self :
    ∀ (l m : List Char), l.isPrefixOf (l ++ m) = true := by
  intro l m
  induction l with
  | nil => simp [List.isPrefixOf]
  | cons a t ih => simp [List.isPrefixOf, ih]

/-- An environment under which the model output key collides with the raw
dataset key. -/
def envClash : Env := fun k =>
  if k = "MODEL_OUTPUT" then some "data/"
  else if k = "MODEL_OUTPUT_FILENAME" then some "train.csv"
  else none

/-- The configuration resolved under `envClash`. -/
def cClash : ResolvedEnv :=
  { use_gpu := false
    num_workers := 1
    num_epochs := 2
    batch_size := 64
    aws_access_key_id := none
    aws_secret_access_key := none
    endpoint_url := none
    region_name := none
    bucket_name := none
    train_data := "data/train.csv"
    model_output_dir := "data/"
    model_output_filename := "train.csv" }

/-- C7 counterexample: the claim that no operation writes to the raw
dataset's object-storage path fails for the environment
`MODEL_OUTPUT=data/`, `MODEL_OUTPUT_FILENAME=train.csv`: there the
model output key equals the raw dataset key `data/train.csv`, and the
run uploads the converted model to it. -/
theorem C7_raw_path_write_cex :
    resolveEnv envClash = some cClash
    ∧ model_output cClash = cClash.train_data
    ∧ Event.uploadFile "/tmp/model.onnx" cClash.train_data ∈
        pipelineTrace cClash id [] "ck7" := by
  refine ⟨by decide, by decide, ?_⟩
  simp [pipelineTrace, pipeline, saveScalarTrace, saveOnnxTrace]
  decide

/-- C7 (amended): every upload of a run targets exactly the two keys
`model_output_prefix ++ "scaler.pkl"` and
`model_output_prefix ++ model_output_filename`, both under the
configured model output location; the in-memory raw dataset value is
left untouched by the derived transforms; and whenever those two output
keys differ from the raw-data key — as they do under the default
configuration — no upload targets the raw dataset's key.  (If the
configured output key is made to coincide with the raw-data key, the
model upload does write it.) -/
theorem C7_uploads_under_model_dir (c : ResolvedEnv) (sqrtQ : ℚ → ℚ)
    (raw : Dataset) (cp : String) :
    (pipelineTrace c sqrtQ raw cp).filter Event.isUpload =
        [Event.uploadFile "/tmp/scaler.pkl" (scaler_output c),
         Event.uploadFile "/tmp/model.onnx" (model_output c)]
    ∧ c.model_output_dir.data.isPrefixOf (scaler_output c).data = true
    ∧ c.model_output_dir.data.isPrefixOf (model_output c).data = true
    ∧ (scaler_output c ≠ c.train_data → model_output c ≠ c.train_data →
        ∀ lp k, Event.uploadFile lp k ∈ pipelineTrace c sqrtQ raw cp →
          k ≠ c.train_data)
    ∧ (pipeline c sqrtQ raw cp).rawData = raw := by
  refine ⟨?_, ?_, ?_, ?_, rfl⟩
  · simp [pipelineTrace, pipeline, saveScalarTrace, saveOnnxTrace,
      Event.isUpload, List.filter]
  · rw [show (scaler_output c).data =
        c.model_output_dir.data ++ "scaler.pkl".data from rfl]
    exact isPrefixOf_append_self _ _
  · rw [show (model_output c).data =
        c.model_output_dir.data ++ c.model_output_filename.data from rfl]
    exact isPrefixOf_append_self _ _
  · intro h1 h2 lp k hmem
    simp [pipelineTrace, pipeline, saveScalarTrace, saveOnnxTrace] at hmem
    rcases hmem with ⟨_, hk⟩ | ⟨_, hk⟩
    · exact hk ▸ h1
    · exact hk ▸ h2

theorem C7_uploads_under_model_dir_witness :
    (pipelineTrace cDefault id rawSample "ck7w").filter Event.isUpload =
        [Event.uploadFile "/tmp/scaler.pkl" (scaler_output cDefault),
         Event.uploadFile "/tmp/model.onnx" (model_output cDefault)]
    ∧ cDefault.model_output_dir.data.isPrefixOf
        (scaler_output cDefault).data = true
    ∧ cDefault.model_output_dir.data.isPrefixOf
        (model_output cDefault).data = true
    ∧ (scaler_output cDefault ≠ cDefault.train_data →
        model_output cDefault ≠ cDefault.train_data →
        ∀ lp k, Event.uploadFile lp k ∈
            pipelineTrace cDefault id rawSample "ck7w" →
          k ≠ cDefault.train_data)
    ∧ (pipeline cDefault id rawSample "ck7w").rawData = rawSample :=
  C7_uploads_under_model_dir cDefault id rawSample "ck7w"

end FraudTrain
